import Mathlib

/-!
Verification of the SAM Africa dashboard data-acquisition pipeline
(`config.py` / `sam_api.py`): the fetch → filter → normalize → persist path.

The Python source is shallowly embedded: raw upstream records become an
explicit structure of optional string fields (a missing dictionary key is
`none`), the SQLite `opportunities` table becomes a list of normalized rows,
network traffic becomes an explicit upstream oracle mapping each request to a
response, and every loop of the source becomes a structurally recursive Lean
function mirroring the control flow of the original.
-/

namespace SamAfrica

/-- The fixed allow-list of African country ISO codes,
`config.AFRICAN_COUNTRIES`. -/
def AFRICAN_COUNTRIES : List String := [
  "DZA", "AGO", "BEN", "BWA", "BFA", "BDI", "CMR", "CPV",
  "CAF", "TCD", "COM", "COG", "COD", "CIV", "DJI", "EGY",
  "GNQ", "ERI", "ETH", "GAB", "GMB", "GHA", "GIN", "GNB",
  "KEN", "LSO", "LBR", "LBY", "MDG", "MWI", "MLI", "MRT",
  "MUS", "MAR", "MOZ", "NAM", "NER", "NGA", "RWA", "STP",
  "SEN", "SYC", "SLE", "SOM", "ZAF", "SSD", "SDN", "SWZ",
  "TZA", "TGO", "TUN", "UGA", "ZMB", "ZWE" ]

/-- The code-to-display-name table `config.AFRICAN_COUNTRY_NAMES`, as an
association list in the source's insertion order. -/
def AFRICAN_COUNTRY_NAMES : List (String × String) := [
  ( "DZA", "Algeria" ), ( "AGO", "Angola" ), ( "BEN", "Benin" ),
  ( "BWA", "Botswana" ), ( "BFA", "Burkina Faso" ), ( "BDI", "Burundi" ),
  ( "CMR", "Cameroon" ), ( "CPV", "Cape Verde" ),
  ( "CAF", "Central African Republic" ), ( "TCD", "Chad" ),
  ( "COM", "Comoros" ), ( "COG", "Congo" ),
  ( "COD", "Democratic Republic of Congo" ), ( "CIV", "Cote d\x27Ivoire" ),
  ( "DJI", "Djibouti" ), ( "EGY", "Egypt" ), ( "GNQ", "Equatorial Guinea" ),
  ( "ERI", "Eritrea" ), ( "ETH", "Ethiopia" ), ( "GAB", "Gabon" ),
  ( "GMB", "Gambia" ), ( "GHA", "Ghana" ), ( "GIN", "Guinea" ),
  ( "GNB", "Guinea-Bissau" ), ( "KEN", "Kenya" ), ( "LSO", "Lesotho" ),
  ( "LBR", "Liberia" ), ( "LBY", "Libya" ), ( "MDG", "Madagascar" ),
  ( "MWI", "Malawi" ), ( "MLI", "Mali" ), ( "MRT", "Mauritania" ),
  ( "MUS", "Mauritius" ), ( "MAR", "Morocco" ), ( "MOZ", "Mozambique" ),
  ( "NAM", "Namibia" ), ( "NER", "Niger" ), ( "NGA", "Nigeria" ),
  ( "RWA", "Rwanda" ), ( "STP", "Sao Tome and Principe" ),
  ( "SEN", "Senegal" ), ( "SYC", "Seychelles" ), ( "SLE", "Sierra Leone" ),
  ( "SOM", "Somalia" ), ( "ZAF", "South Africa" ), ( "SSD", "South Sudan" ),
  ( "SDN", "Sudan" ), ( "SWZ", "Eswatini" ), ( "TZA", "Tanzania" ),
  ( "TGO", "Togo" ), ( "TUN", "Tunisia" ), ( "UGA", "Uganda" ),
  ( "ZMB", "Zambia" ), ( "ZWE", "Zimbabwe" ) ]

/-- The fixed free-text keyword list `config.AFRICA_KEYWORDS`. -/
def AFRICA_KEYWORDS : List String := [
  "africa", "african", "sub-saharan", "horn of africa", "west africa",
  "east africa", "central africa", "southern africa", "north africa",
  "sahel", "maghreb", "african union", "ecowas", "sadc", "eac" ]

/-- `config.MAX_RESULTS_PER_REQUEST`. -/
def MAX_RESULTS_PER_REQUEST : Nat := 1000

/-- `config.HISTORICAL_YEARS_BACK` (default value 10). -/
def HISTORICAL_YEARS_BACK : Nat := 10

/-- `config.SAM_GOV_OPPORTUNITY_BASE_URL`. -/
def SAM_GOV_OPPORTUNITY_BASE_URL : String := "https://sam.gov/opp/"

/-- The nested `country` sub-object of `placeOfPerformance` in a raw upstream
record; each key may be absent. -/
structure RawCountry where
  code : Option String
  name : Option String
deriving DecidableEq

/-- A nested sub-object carrying just a `name` key (`state`, `city`). -/
structure RawNamed where
  name : Option String
deriving DecidableEq

/-- The `placeOfPerformance` sub-object of a raw upstream record. -/
structure RawPlaceOfPerformance where
  country : Option RawCountry
  state : Option RawNamed
  city : Option RawNamed
deriving DecidableEq

/-- A raw opportunity record as returned by the upstream API: the keys that
`sam_api.py` reads, each possibly absent (`opp.get(key, default)`), plus the
upstream `active` field, which is present in the feed but never read by the
pipeline. -/
structure RawOpportunity where
  noticeId : Option String
  title : Option String
  description : Option String
  department : Option String
  subTier : Option String
  office : Option String
  postedDate : Option String
  responseDeadLine : Option String
  type : Option String
  baseType : Option String
  archiveDate : Option String
  archiveType : Option String
  awardDate : Option String
  awardNumber : Option String
  awardAmount : Option String
  awardee : Option String
  placeOfPerformance : Option RawPlaceOfPerformance
  active : Option String
deriving DecidableEq

/-- A normalized opportunity row, one column per field of the SQLite
`opportunities` table created by `_init_database`. `is_active` is the stored
INTEGER flag (1 = active, 0 = archived). -/
structure Opportunity where
  notice_id : String
  title : String
  description : String
  department : String
  sub_tier : String
  office : String
  posted_date : String
  response_date : String
  notice_type : String
  base_type : String
  archive_date : String
  archive_type : String
  award_date : String
  award_number : String
  award_amount : String
  awardee : String
  pop_country_code : String
  pop_country_name : String
  pop_state : String
  pop_city : String
  african_country : String
  sam_url : String
  is_active : Nat
  data_collection_date : String
  last_updated : String
deriving DecidableEq

/-- Python `str(d.get(key, ""))` over our option-valued raw fields. -/
def getStr (o : Option String) : String := o.getD ""

/-- Python `s.lower()`, modelled at the character-list level. -/
def pyLower (s : String) : List Char := s.data.map Char.toLower

/-- Python substring containment `needle in hay` on character lists. -/
def containsSub (needle : List Char) : List Char → Bool
  | [] => needle.isEmpty
  | c :: rest => needle.isPrefixOf (c :: rest) || containsSub needle rest

/-- `pop.get("country", {}).get("code", "")` of `filter_africa_opportunities`
and `process_opportunity`: the place-of-performance country code with empty
defaults at every level. -/
def popCountryCode (opp : RawOpportunity) : String :=
  getStr ((opp.placeOfPerformance.bind (fun p => p.country)).bind (fun c => c.code))

/-- The per-record relevance decision of `filter_africa_opportunities`: the
`is_africa` flag is set when the place-of-performance country code is in the
allow-list, when a configured keyword occurs in the lowered title or
description, or when a lowered country display name occurs in the lowered
title or description. -/
def is_africa_opp (opp : RawOpportunity) : Bool :=
  let country_code := popCountryCode opp
  let fromCode := AFRICAN_COUNTRIES.contains country_code
  let title := pyLower (getStr opp.title)
  let desc := pyLower (getStr opp.description)
  let fromKeyword := AFRICA_KEYWORDS.any fun k =>
    containsSub k.data title || containsSub k.data desc
  let fromName := AFRICAN_COUNTRY_NAMES.any fun p =>
    containsSub (pyLower p.2) title || containsSub (pyLower p.2) desc
  fromCode || fromKeyword || fromName

/-- Processing time, as far as the pipeline renders it: `day` is the current
date as a day number (for window arithmetic), `ymd` its `%Y-%m-%d` rendering,
`iso` the `isoformat()` timestamp, and `ymdPlus30` / `ymdPlus45` the
`%Y-%m-%d` renderings of now + 30 and now + 45 days (used only by the sample
records). -/
structure Time where
  day : Nat
  ymd : String
  iso : String
  ymdPlus30 : String
  ymdPlus45 : String
deriving DecidableEq

/-- `AFRICAN_COUNTRY_NAMES.get(code)`: exact lookup in the code-to-name
table. -/
def lookupCountryName (code : String) : Option String :=
  (AFRICAN_COUNTRY_NAMES.find? (fun p => p.1 == code)).map (fun p => p.2)

/-- `process_opportunity`: normalization of one raw record into a row of the
canonical schema, stamped with the processing time `t`. -/
def process_opportunity (t : Time) (opp : RawOpportunity) : Opportunity :=
  let notice_id := getStr opp.noticeId
  let archive_type := getStr opp.archiveType
  { notice_id := notice_id
    title := getStr opp.title
    description := (getStr opp.description).take 2000
    department := getStr opp.department
    sub_tier := getStr opp.subTier
    office := getStr opp.office
    posted_date := getStr opp.postedDate
    response_date := getStr opp.responseDeadLine
    notice_type := getStr opp.type
    base_type := getStr opp.baseType
    archive_date := getStr opp.archiveDate
    archive_type := archive_type
    award_date := getStr opp.awardDate
    award_number := getStr opp.awardNumber
    award_amount := getStr opp.awardAmount
    awardee := getStr opp.awardee
    pop_country_code := popCountryCode opp
    pop_country_name :=
      getStr ((opp.placeOfPerformance.bind (fun p => p.country)).bind (fun c => c.name))
    pop_state :=
      getStr ((opp.placeOfPerformance.bind (fun p => p.state)).bind (fun s => s.name))
    pop_city :=
      getStr ((opp.placeOfPerformance.bind (fun p => p.city)).bind (fun c => c.name))
    african_country := (lookupCountryName (popCountryCode opp)).getD "Other/Multiple"
    sam_url :=
      if notice_id = "" then ""
      else SAM_GOV_OPPORTUNITY_BASE_URL ++ notice_id ++ "/view"
    is_active :=
      if archive_type = "" ∨ archive_type = "" ∨ archive_type = "nan" then 1 else 0
    data_collection_date := t.iso
    last_updated := t.iso }

/-- `filter_africa_opportunities`: keep the records whose `is_africa` flag is
set, in order, each normalized through `process_opportunity`. -/
def filter_africa_opportunities (t : Time) (ops : List RawOpportunity) :
    List Opportunity :=
  (ops.filter is_africa_opp).map (process_opportunity t)

/-- The possible outcomes of one HTTP request of the fetch client:
a 200 page of items, a 401, a 429 rate limit, any other non-200 status, a
network timeout, or any other raised request failure. -/
inductive Response where
  | ok (items : List RawOpportunity)
  | status401
  | status429
  | statusOther
  | timeout
  | requestError
deriving DecidableEq

/-- A posted-date window, as a pair of day numbers (postedFrom, postedTo). -/
abbrev Window := Nat × Nat

/-- The upstream server as an oracle: the response it gives to a request
carrying a given API key and window, at a given request ordinal and offset. -/
abbrev Upstream := Option String → Window → Nat → Nat → Response

/-- The `max_requests` bound of `fetch_opportunities`. -/
def max_requests : Nat := 50

/-- The pagination loop of `fetch_opportunities`
(`for request_count in range(max_requests)`), one constructor case per branch
of the source loop body.  `page reqIdx offset` is the server's answer to the
request at ordinal `reqIdx` with cursor `offset`.  Returns the accumulated
items together with the log of offsets of the requests issued:

* 401 — break, returning what was accumulated;
* 429 — sleep and continue with the same offset (the loop counter advances);
* other non-200 — break;
* 200 with an empty list — break;
* 200 with fewer than `limit` items — append and break (natural last page);
* 200 with a full page — append, advance the offset by `limit`, continue;
* a timeout or any other raised failure — caught outside the loop, returning
  what was accumulated. -/
def fetchLoop (page : Nat → Nat → Response) (limit : Nat) :
    Nat → Nat → Nat → List RawOpportunity → List RawOpportunity × List Nat
  | 0, _, _, acc => (acc, [])
  | fuel+1, reqIdx, offset, acc =>
    match page reqIdx offset with
    | .status401 => (acc, [offset])
    | .status429 =>
        let rest := fetchLoop page limit fuel (reqIdx+1) offset acc
        (rest.1, offset :: rest.2)
    | .statusOther => (acc, [offset])
    | .ok items =>
        if items.isEmpty then (acc, [offset])
        else if items.length < limit then (acc ++ items, [offset])
        else
          let rest := fetchLoop page limit fuel (reqIdx+1) (offset+limit) (acc ++ items)
          (rest.1, offset :: rest.2)
    | .timeout => (acc, [offset])
    | .requestError => (acc, [offset])

/-- `fetch_opportunities`: paginated fetch of one window against upstream `u`
with credential `key`, starting at offset 0 with an empty accumulator.  The
source never consults the credential here; it only forwards it in the request
parameters. -/
def fetch_opportunities (key : Option String) (u : Upstream) (w : Window)
    (limit : Nat) : List RawOpportunity × List Nat :=
  fetchLoop (u key w) limit max_requests 0 0 []

/-- Python truthiness of the configured key: `not self.api_key` holds for an
unset variable (`None`) and for the empty string. -/
def keyMissing : Option String → Bool
  | none => true
  | some s => s == ""

/-- `_validate_api_key`: fail fast with no request when the key is missing;
otherwise issue one test request and report invalid only on a 401 (any other
status or failure continues anyway).  Returns the verdict and the number of
network requests issued. -/
def validate_api_key (key : Option String) (u : Upstream) (t : Time) :
    Bool × Nat :=
  if keyMissing key then (false, 0)
  else
    match u key (t.day, t.day) 0 0 with
    | .status401 => (false, 1)
    | .ok _ => (true, 1)
    | .status429 => (true, 1)
    | .statusOther => (true, 1)
    | .timeout => (true, 1)
    | .requestError => (true, 1)

/-- The 30-day chunking loop of `fetch_comprehensive_historical_data`
(`while current_date < end_date`), with explicit fuel: each iteration
advances `current` by at least one day, so `endDay - current` iterations
always suffice (`chunkLoop_fuel_irrelevant` below). -/
def chunkLoop : Nat → Nat → Nat → List (Nat × Nat)
  | 0, _, _ => []
  | fuel+1, current, endDay =>
    if current < endDay then
      let chunkEnd := min (current + 30) endDay
      (current, chunkEnd) :: chunkLoop fuel chunkEnd endDay
    else []

/-- The consecutive 30-day windows covering `[startDay, endDay)`, the last
clipped to end at `endDay`. -/
def chunkWindows (startDay endDay : Nat) : List (Nat × Nat) :=
  chunkLoop (endDay - startDay) startDay endDay

/-- `fetch_comprehensive_historical_data`: validate the key (empty result on
failure), then fetch every 30-day chunk of the trailing
`HISTORICAL_YEARS_BACK * 365` days and concatenate the results.  Returns the
accumulated raw records and the total number of network requests issued
(including the validation test request). -/
def fetch_comprehensive_historical_data (key : Option String) (u : Upstream)
    (t : Time) : List RawOpportunity × Nat :=
  let v := validate_api_key key u t
  if v.1 = false then ([], v.2)
  else
    let startDay := t.day - HISTORICAL_YEARS_BACK * 365
    (chunkWindows startDay t.day).foldl
      (fun acc w =>
        let res := fetch_opportunities key u w MAX_RESULTS_PER_REQUEST
        (acc.1 ++ res.1, acc.2 + res.2.length))
      ([], v.2)

/-- `save_to_database` acting on the `opportunities` table (modelled as the
list of its rows): an empty batch returns an empty frame without touching
the store; a non-empty batch is written with
`df.to_sql(..., if_exists='replace')`, which drops the table and recreates
it from exactly the batch rows.  Returns the new table and the returned
frame. -/
def save_to_database (st : List Opportunity) (ops : List Opportunity) :
    List Opportunity × List Opportunity :=
  if ops.isEmpty then (st, [])
  else (ops, ops)

/-- The fixed illustrative records of `create_enhanced_sample_data`, stamped
with the processing time `t`. -/
def sample_data (t : Time) : List Opportunity := [
  { notice_id := "SAMPLE001"
    title := "Infrastructure Development in West Africa - Roads and Bridges"
    description := "Comprehensive infrastructure development project focusing on road and bridge construction across multiple West African nations. This long-term initiative aims to improve transportation networks and economic connectivity throughout the region."
    department := "DEPARTMENT OF STATE"
    sub_tier := "Bureau of African Affairs"
    office := "Office of West African Affairs"
    posted_date := t.ymd
    response_date := t.ymdPlus30
    notice_type := "Presolicitation"
    base_type := "Contract Opportunity"
    archive_date := ""
    archive_type := ""
    award_date := ""
    award_number := ""
    award_amount := "$15,000,000"
    awardee := ""
    pop_country_code := "GHA"
    pop_country_name := "Ghana"
    pop_state := ""
    pop_city := "Accra"
    african_country := "Ghana"
    sam_url := "https://sam.gov/opp/SAMPLE001/view"
    is_active := 1
    data_collection_date := t.iso
    last_updated := t.iso },
  { notice_id := "SAMPLE002"
    title := "Healthcare Systems Support in East Africa - Medical Equipment Supply"
    description := "Multi-year healthcare improvement initiative providing medical equipment, training, and systems support to healthcare facilities across East African countries. Focus on sustainable healthcare infrastructure development."
    department := "DEPARTMENT OF HEALTH AND HUMAN SERVICES"
    sub_tier := "Centers for Disease Control and Prevention"
    office := "Global Health Center"
    posted_date := t.ymd
    response_date := t.ymdPlus45
    notice_type := "Sources Sought"
    base_type := "Contract Opportunity"
    archive_date := ""
    archive_type := ""
    award_date := ""
    award_number := ""
    award_amount := "$25,000,000"
    awardee := ""
    pop_country_code := "KEN"
    pop_country_name := "Kenya"
    pop_state := ""
    pop_city := "Nairobi"
    african_country := "Kenya"
    sam_url := "https://sam.gov/opp/SAMPLE002/view"
    is_active := 1
    data_collection_date := t.iso
    last_updated := t.iso },
  { notice_id := "SAMPLE003_HISTORICAL"
    title := "Agricultural Development Initiative - Southern Africa (COMPLETED)"
    description := "Completed agricultural development program that provided farming equipment, training, and sustainable agriculture practices to rural communities across Southern Africa. This historical project ran from 2020-2023."
    department := "DEPARTMENT OF AGRICULTURE"
    sub_tier := "Foreign Agricultural Service"
    office := "International Development"
    posted_date := "2020-01-15"
    response_date := "2020-03-15"
    notice_type := "Combined Synopsis/Solicitation"
    base_type := "Contract Opportunity"
    archive_date := "2023-12-31"
    archive_type := "Manual Close"
    award_date := "2020-04-01"
    award_number := "AGR-2020-AFR-001"
    award_amount := "$45,000,000"
    awardee := "Global Development Solutions Inc."
    pop_country_code := "ZAF"
    pop_country_name := "South Africa"
    pop_state := ""
    pop_city := "Cape Town"
    african_country := "South Africa"
    sam_url := "https://sam.gov/opp/SAMPLE003_HISTORICAL/view"
    is_active := 0
    data_collection_date := t.iso
    last_updated := t.iso } ]

/-- `create_enhanced_sample_data`: seed the store with the fixed sample
records through the ordinary persistence path. -/
def create_enhanced_sample_data (t : Time) (st : List Opportunity) :
    List Opportunity × List Opportunity :=
  save_to_database st (sample_data t)

/-- `update_comprehensive_africa_data`: the orchestrator.  Fetch the full
historical collection; on an empty fetch or an empty filtered set fall back
to the sample data; otherwise persist the filtered batch.  Returns the
resulting table and the returned frame. -/
def update_comprehensive_africa_data (key : Option String) (u : Upstream)
    (t : Time) (st : List Opportunity) : List Opportunity × List Opportunity :=
  let fetched := fetch_comprehensive_historical_data key u t
  if fetched.1.isEmpty then create_enhanced_sample_data t st
  else
    let africa := filter_africa_opportunities t fetched.1
    if africa.isEmpty then create_enhanced_sample_data t st
    else save_to_database st africa

/-- Erase the two fields stamped with the processing-time clock
(`data_collection_date`, `last_updated`). -/
def stripTime (p : Opportunity) : Opportunity :=
  { p with data_collection_date := "", last_updated := "" }

/-- Erase every field the pipeline stamps from the current clock anywhere:
the two collection timestamps, and the `posted_date` / `response_date` that
the sample records derive from the current date. -/
def stripVolatile (p : Opportunity) : Opportunity :=
  { p with data_collection_date := "", last_updated := "",
           posted_date := "", response_date := "" }

/-- Case-insensitive containment as the specification words it: the needle
occurs in the haystack after lowering both sides. -/
def containsCI (hay needle : String) : Bool :=
  containsSub (pyLower needle) (pyLower hay)

/-- The specification's clause (2): the title or the description contains,
case-insensitively, one of the fixed Africa keywords. -/
def textMatchesKeyword (opp : RawOpportunity) : Bool :=
  AFRICA_KEYWORDS.any fun k =>
    containsCI (getStr opp.title) k || containsCI (getStr opp.description) k

/-- The specification's clause (3): the title or the description contains,
case-insensitively, the display name of an allow-listed country. -/
def textMatchesCountryName (opp : RawOpportunity) : Bool :=
  AFRICAN_COUNTRY_NAMES.any fun p =>
    containsCI (getStr opp.title) p.2 || containsCI (getStr opp.description) p.2

/-- A raw record with every key absent. -/
def emptyRaw : RawOpportunity :=
  { noticeId := none, title := none, description := none, department := none,
    subTier := none, office := none, postedDate := none,
    responseDeadLine := none, type := none, baseType := none,
    archiveDate := none, archiveType := none, awardDate := none,
    awardNumber := none, awardAmount := none, awardee := none,
    placeOfPerformance := none, active := none }

/-- A raw record whose place of performance carries the country code KEN. -/
def kenRaw : RawOpportunity :=
  { emptyRaw with
    noticeId := some "KEN001"
    title := some "Border station construction"
    description := some "Construction work at a border station."
    postedDate := some "2024-01-02"
    placeOfPerformance := some
      { country := some { code := some "KEN", name := some "Kenya" }
        state := none, city := none }
    active := some "Yes" }

/-- A raw record that was archived upstream: a non-empty `archiveType`,
with the upstream `active` field claiming the record is active. -/
def archivedRaw : RawOpportunity :=
  { emptyRaw with
    noticeId := some "ARCH001"
    archiveType := some "autocustom"
    active := some "Yes" }

/-- A second raw record with the same `archiveType` as `archivedRaw` but a
different title and the opposite upstream `active` field. -/
def archivedRaw2 : RawOpportunity :=
  { emptyRaw with
    noticeId := some "ARCH002"
    title := some "Different record"
    archiveType := some "autocustom"
    active := some "No" }

/-- A concrete processing time: one 30-day window of history behind it. -/
def t0 : Time :=
  { day := 30, ymd := "2024-01-31", iso := "2024-01-31T00:00:00.000000",
    ymdPlus30 := "2024-03-01", ymdPlus45 := "2024-03-16" }

/-- A first concrete run time. -/
def tRun1 : Time :=
  { day := 30, ymd := "2024-01-31", iso := "2024-01-31T06:00:00.000000",
    ymdPlus30 := "2024-03-01", ymdPlus45 := "2024-03-16" }

/-- A second concrete run time, one day after `tRun1`. -/
def tRun2 : Time :=
  { day := 30, ymd := "2024-02-01", iso := "2024-02-01T06:00:00.000000",
    ymdPlus30 := "2024-03-02", ymdPlus45 := "2024-03-17" }

/-- An upstream that always answers with an empty 200 page. -/
def uEmpty : Upstream := fun _ _ _ _ => Response.ok []

/-- An upstream that always answers 401. -/
def u401 : Upstream := fun _ _ _ _ => Response.status401

/-- An upstream that always serves the single Kenya record. -/
def uKen : Upstream := fun _ _ _ _ => Response.ok [kenRaw]

/-- A normalized row fixture: identity `id`, title `ttl`, everything else
blank. -/
def mkOpp (id ttl : String) : Opportunity :=
  { notice_id := id, title := ttl, description := "", department := "",
    sub_tier := "", office := "", posted_date := "", response_date := "",
    notice_type := "", base_type := "", archive_date := "", archive_type := "",
    award_date := "", award_number := "", award_amount := "", awardee := "",
    pop_country_code := "", pop_country_name := "", pop_state := "",
    pop_city := "", african_country := "Other/Multiple", sam_url := "",
    is_active := 1, data_collection_date := "", last_updated := "" }

/-! ### General lemmas about the embedded operations -/

/-- The fuel given to `chunkLoop` is irrelevant as soon as it covers the
remaining days, so `chunkWindows` computes the full limit of the source's
unbounded `while` loop: every iteration advances `current` by at least one
day. -/
theorem chunkLoop_fuel_irrelevant (e : Nat) :
    ∀ f1 f2 c, e - c ≤ f1 → e - c ≤ f2 → chunkLoop f1 c e = chunkLoop f2 c e := by
  intro f1
  induction f1 with
  | zero =>
    intro f2 c h1 h2
    have hce : ¬ c < e := by omega
    cases f2 with
    | zero => rfl
    | succ m => simp [chunkLoop, hce]
  | succ n ih =>
    intro f2 c h1 h2
    by_cases hce : c < e
    · have hf2 : ∃ m, f2 = m + 1 := by
        cases f2 with
        | zero => omega
        | succ m => exact ⟨m, rfl⟩
      obtain ⟨m, rfl⟩ := hf2
      simp only [chunkLoop, hce, if_true]
      have hnext : e - min (c + 30) e ≤ n := by omega
      have hnext2 : e - min (c + 30) e ≤ m := by omega
      rw [ih _ _ hnext hnext2]
    · cases f2 with
      | zero => simp [chunkLoop, hce]
      | succ m => simp [chunkLoop, hce]

/-- The sample seed is never the empty batch. -/
theorem sample_data_ne_empty (t : Time) : (sample_data t).isEmpty = false := rfl

/-- Normalization differs between two processing times only in the two
clock-stamped fields. -/
theorem stripTime_process (t tp : Time) (opp : RawOpportunity) :
    stripTime (process_opportunity t opp)
      = stripTime (process_opportunity tp opp) := rfl

/-- Stripping the volatile fields after stripping the timestamps is the same
as stripping the volatile fields outright. -/
theorem stripVolatile_stripTime (p : Opportunity) :
    stripVolatile (stripTime p) = stripVolatile p := rfl

/-- The identity survives timestamp stripping. -/
theorem notice_id_stripTime (p : Opportunity) :
    (stripTime p).notice_id = p.notice_id := rfl

/-- `List.any` respects pointwise-equal predicates. -/
theorem any_congruent {α : Type} {l : List α} {f g : α → Bool}
    (h : ∀ a ∈ l, f a = g a) : l.any f = l.any g := by
  induction l with
  | nil => rfl
  | cons a as ih =>
    simp only [List.any_cons, h a (by simp)]
    rw [ih (fun b hb => h b (by simp [hb]))]

/-- Every configured keyword is already lower-case, so lowering it is the
identity. -/
theorem keyword_lower_fixed : ∀ k ∈ AFRICA_KEYWORDS, pyLower k = k.data := by
  decide

/-! ### C10, C1, C2: the persistence layer -/

/-- C10: persisting an empty batch returns an empty frame and leaves the
stored `opportunities` table unchanged; the delete-and-recreate path is not
reached. -/
theorem C10_empty_batch_is_noop (st : List Opportunity) :
    save_to_database st [] = (st, []) := rfl

/-- C1 (code behavior at the failing input): writing a batch that does not
mention the stored identity OLD1 erases the OLD1 row — `save_to_database`
recreates the whole table from the batch instead of upserting by
`notice_id`. -/
theorem C1_overwrite_loses_unmatched_rows :
    (save_to_database [mkOpp "OLD1" "stored by an earlier run"]
        [mkOpp "NEW1" "from the current batch"]).1
      = [mkOpp "NEW1" "from the current batch"]
    ∧ "OLD1" ∉ ((save_to_database [mkOpp "OLD1" "stored by an earlier run"]
        [mkOpp "NEW1" "from the current batch"]).1.map Opportunity.notice_id) := by
  exact ⟨rfl, by decide⟩

/-- C2 (code behavior at the failing input): a batch holding two records with
the same `notice_id` is stored as two rows sharing that identity — the
uniqueness invariant declared by the table's primary key does not survive the
write path. -/
theorem C2_duplicate_notice_ids_stored :
    ((save_to_database [] [mkOpp "DUP" "copy fetched in chunk 1",
        mkOpp "DUP" "copy fetched in chunk 2"]).1.map Opportunity.notice_id)
      = [ "DUP", "DUP" ]
    ∧ (save_to_database [] [mkOpp "DUP" "copy fetched in chunk 1",
        mkOpp "DUP" "copy fetched in chunk 2"]).1.length = 2
    ∧ ¬ ((save_to_database [] [mkOpp "DUP" "copy fetched in chunk 1",
        mkOpp "DUP" "copy fetched in chunk 2"]).1.map Opportunity.notice_id).Nodup := by
  refine ⟨rfl, rfl, ?_⟩
  decide

/-! ### C9: the missing-credential path -/

/-- C9 (amended): the comprehensive historical fetch with a missing
credential returns an empty result after zero network requests — the key
check in `_validate_api_key` fires before its test request is issued. -/
theorem C9_no_credential_fail_fast (key : Option String) (u : Upstream)
    (t : Time) (h : keyMissing key = true) :
    fetch_comprehensive_historical_data key u t = ([], 0) := by
  unfold fetch_comprehensive_historical_data validate_api_key
  rw [h]
  simp

/-- C9 witness: the amended theorem at the concrete unset key. -/
theorem C9_witness :
    fetch_comprehensive_historical_data none u401 t0 = ([], 0) :=
  C9_no_credential_fail_fast none u401 t0 rfl

/-- C9 counterexample to the claim as stated: `fetch_opportunities` itself
never checks the credential — invoked directly with no key it still issues a
network request (which the upstream answers with 401), so the fetch operation
does not universally avoid network calls when the credential is absent. -/
theorem C9_counterexample :
    (fetch_opportunities none u401 (0, 30) 1000).2 ≠ []
    ∧ (fetch_opportunities none u401 (0, 30) 1000).1 = [] := by
  refine ⟨?_, rfl⟩
  decide

/-! ### C7: the derived active flag -/

/-- C7: the normalized `is_active` flag is cleared exactly when the coerced
`archive_type` string is non-empty and differs from the absent-marker "nan";
and it is a function of `archive_type` alone — two raw records agreeing on
`archiveType` get the same flag whatever their other fields (including the
upstream `active` field) and whatever the processing time. -/
theorem C7_is_active_derived (t tp : Time) (opp opp2 : RawOpportunity) :
    ((process_opportunity t opp).is_active = 0 ↔
      (getStr opp.archiveType ≠ "" ∧ getStr opp.archiveType ≠ "nan"))
    ∧ (opp2.archiveType = opp.archiveType →
        (process_opportunity tp opp2).is_active
          = (process_opportunity t opp).is_active) := by
  constructor
  · have hred : (process_opportunity t opp).is_active
        = if getStr opp.archiveType = "" ∨ getStr opp.archiveType = ""
            ∨ getStr opp.archiveType = "nan" then 1 else 0 := rfl
    rw [hred]
    split_ifs with h
    · constructor
      · intro hc; exact absurd hc (by decide)
      · rintro ⟨hne, hnan⟩
        rcases h with h | h | h
        · exact hne h
        · exact hne h
        · exact hnan h
    · constructor
      · intro _
        constructor
        · intro he; exact h (Or.inl he)
        · intro hn; exact h (Or.inr (Or.inr hn))
      · intro _; rfl
  · intro h
    have h1 : (process_opportunity tp opp2).is_active
        = if getStr opp2.archiveType = "" ∨ getStr opp2.archiveType = ""
            ∨ getStr opp2.archiveType = "nan" then 1 else 0 := rfl
    have h2 : (process_opportunity t opp).is_active
        = if getStr opp.archiveType = "" ∨ getStr opp.archiveType = ""
            ∨ getStr opp.archiveType = "nan" then 1 else 0 := rfl
    rw [h1, h2, h]

/-- C7 witness: an upstream-archived record is flagged inactive even though
its upstream `active` field says "Yes", and a record with the same
`archiveType` gets the same flag at another processing time. -/
theorem C7_witness :
    (process_opportunity t0 archivedRaw).is_active = 0
    ∧ (process_opportunity tRun2 archivedRaw2).is_active
        = (process_opportunity t0 archivedRaw).is_active :=
  ⟨(C7_is_active_derived t0 t0 archivedRaw archivedRaw).1.mpr (by decide),
   (C7_is_active_derived t0 tRun2 archivedRaw archivedRaw2).2 rfl⟩

/-! ### C3: the relevance filter -/

/-- The per-record decision agrees with the three-clause disjunction worded
by the specification: the source lowers only the haystack for the keyword
scan, which coincides with full case-insensitive containment because every
configured keyword is already lower-case. -/
theorem is_africa_opp_eq (opp : RawOpportunity) :
    is_africa_opp opp
      = (AFRICAN_COUNTRIES.contains (popCountryCode opp)
          || textMatchesKeyword opp || textMatchesCountryName opp) := by
  have hk : (AFRICA_KEYWORDS.any fun k =>
        containsSub k.data (pyLower (getStr opp.title))
          || containsSub k.data (pyLower (getStr opp.description)))
      = textMatchesKeyword opp := by
    unfold textMatchesKeyword containsCI
    refine (any_congruent ?_).symm
    intro k hkmem
    rw [keyword_lower_fixed k hkmem]
  have hn : (AFRICAN_COUNTRY_NAMES.any fun p =>
        containsSub (pyLower p.2) (pyLower (getStr opp.title))
          || containsSub (pyLower p.2) (pyLower (getStr opp.description)))
      = textMatchesCountryName opp := rfl
  simp only [is_africa_opp]
  rw [hk, hn]

/-- C3: a raw record is classified relevant exactly when its
place-of-performance country code is allow-listed, or its title or
description contains (case-insensitively) a configured Africa keyword, or
its title or description contains (case-insensitively) an allow-listed
country's display name; in particular a KEN record is always relevant, a
title containing "West Africa" makes the record relevant, and a record
matching none of the three clauses is not relevant. -/
theorem C3_relevance_policy (opp : RawOpportunity) :
    (is_africa_opp opp = true ↔
      (popCountryCode opp ∈ AFRICAN_COUNTRIES
        ∨ textMatchesKeyword opp = true
        ∨ textMatchesCountryName opp = true))
    ∧ (popCountryCode opp = "KEN" → is_africa_opp opp = true)
    ∧ (containsCI (getStr opp.title) "West Africa" = true →
        is_africa_opp opp = true)
    ∧ (popCountryCode opp ∉ AFRICAN_COUNTRIES →
        textMatchesKeyword opp = false → textMatchesCountryName opp = false →
        is_africa_opp opp = false) := by
  have heq := is_africa_opp_eq opp
  refine ⟨?_, ?_, ?_, ?_⟩
  · rw [heq]
    simp only [Bool.or_eq_true]
    constructor
    · rintro ((hc | hrest) | hrest)
      · exact Or.inl (List.elem_iff.mp hc)
      · exact Or.inr (Or.inl hrest)
      · exact Or.inr (Or.inr hrest)
    · rintro (hc | hkw | hnm)
      · exact Or.inl (Or.inl (List.elem_iff.mpr hc))
      · exact Or.inl (Or.inr hkw)
      · exact Or.inr hnm
  · intro h
    rw [heq, h]
    have hken : AFRICAN_COUNTRIES.contains "KEN" = true := by decide
    rw [hken]
    rfl
  · intro h
    rw [heq]
    have hb : textMatchesKeyword opp = true := by
      have hwa : pyLower "West Africa" = pyLower "west africa" := by decide
      unfold containsCI at h
      rw [hwa] at h
      unfold textMatchesKeyword
      rw [List.any_eq_true]
      refine ⟨ "west africa", by decide, ?_ ⟩
      unfold containsCI
      rw [h]
      rfl
    rw [hb]
    simp
  · intro h1 h2 h3
    rw [heq, h2, h3]
    have hc : AFRICAN_COUNTRIES.contains (popCountryCode opp) = false := by
      cases hb : AFRICAN_COUNTRIES.contains (popCountryCode opp) with
      | false => rfl
      | true => exact absurd (List.elem_iff.mp hb) h1
    rw [hc]
    rfl

/-- C3 witness: the Kenya fixture is classified relevant through the
country-code clause. -/
theorem C3_witness : is_africa_opp kenRaw = true :=
  (C3_relevance_policy kenRaw).2.1 rfl

/-! ### C4, C5: the pagination loop -/

/-- The pagination loop never issues more requests than its fuel. -/
theorem fetchLoop_log_length_le (page : Nat → Nat → Response) (limit : Nat) :
    ∀ fuel reqIdx offset acc,
      (fetchLoop page limit fuel reqIdx offset acc).2.length ≤ fuel := by
  intro fuel
  induction fuel with
  | zero => intro r off acc; simp [fetchLoop]
  | succ n ih =>
    intro r off acc
    cases h : page r off with
    | ok items =>
      by_cases he : items.isEmpty
      · simp [fetchLoop, h, he]
      · by_cases hl : items.length < limit
        · simp [fetchLoop, h, he, hl]
        · have hemp : items.isEmpty = false := by simpa using he
          have := ih (r+1) (off+limit) (acc ++ items)
          simp only [fetchLoop, h, hemp, Bool.false_eq_true, if_false, hl,
            List.length_cons]
          omega
    | status401 => simp [fetchLoop, h]
    | status429 =>
      have := ih (r+1) off acc
      simp only [fetchLoop, h, List.length_cons]
      omega
    | statusOther => simp [fetchLoop, h]
    | timeout => simp [fetchLoop, h]
    | requestError => simp [fetchLoop, h]

/-- One step of the loop on a full 200 page: append, log the offset, advance
the cursor by the page size. -/
theorem fetchLoop_step_full (page : Nat → Nat → Response)
    (limit fuel r off : Nat) (acc items : List RawOpportunity)
    (h : page r off = Response.ok items) (hemp : items.isEmpty = false)
    (hnl : ¬ items.length < limit) :
    fetchLoop page limit (fuel+1) r off acc
      = ((fetchLoop page limit fuel (r+1) (off+limit) (acc ++ items)).1,
         off :: (fetchLoop page limit fuel (r+1) (off+limit) (acc ++ items)).2) := by
  simp only [fetchLoop, h, hemp, Bool.false_eq_true, if_false, hnl]

/-- One step of the loop on a timed-out request: return the accumulator. -/
theorem fetchLoop_step_timeout (page : Nat → Nat → Response)
    (limit fuel r off : Nat) (acc : List RawOpportunity)
    (h : page r off = Response.timeout) :
    fetchLoop page limit (fuel+1) r off acc = (acc, [off]) := by
  simp [fetchLoop, h]

/-- Against a server that always returns exactly a full page, the loop
consumes all its fuel, requesting offsets 0, limit, 2·limit, …. -/
theorem fetchLoop_const_full (page : Nat → Nat → Response) (limit : Nat)
    (items : List RawOpportunity) (hlen : items.length = limit)
    (hpos : 0 < limit) (hpage : ∀ r off, page r off = Response.ok items) :
    ∀ fuel reqIdx offset acc,
      (fetchLoop page limit fuel reqIdx offset acc).2
        = (List.range fuel).map (fun i => offset + i * limit) := by
  intro fuel
  induction fuel with
  | zero => intro r off acc; simp [fetchLoop]
  | succ n ih =>
    intro r off acc
    have hne : items.isEmpty = false := by
      cases items with
      | nil => simp at hlen; omega
      | cons a as => rfl
    have hnl : ¬ items.length < limit := by omega
    simp only [fetchLoop, hpage, hne, Bool.false_eq_true, if_false, hnl]
    rw [ih (r+1) (off+limit) (acc ++ items)]
    rw [List.range_succ_eq_map, List.map_cons, List.map_map]
    refine List.cons_eq_cons.mpr ⟨by omega, ?_⟩
    refine List.map_congr_left ?_
    intro i _
    simp only [Function.comp_apply, Nat.succ_eq_add_one]
    ring

/-- C4: the fetch loop issues at most the hard cap of 50 requests for every
upstream behavior; against an upstream that always returns exactly `limit`
items it stops only at the cap, having advanced the offset by the page size
between successive requests (offsets 0, limit, 2·limit, …); and a page with
fewer than `limit` items — or with zero items — ends the loop at once with no
further request. -/
theorem C4_pagination_termination (key : Option String) (u : Upstream)
    (w : Window) (limit : Nat) (items : List RawOpportunity) :
    (fetch_opportunities key u w limit).2.length ≤ max_requests
    ∧ (items.length = limit → 0 < limit →
        (∀ r off, u key w r off = Response.ok items) →
        (fetch_opportunities key u w limit).2
          = (List.range max_requests).map (fun i => i * limit))
    ∧ (∀ fuel reqIdx offset acc its, u key w reqIdx offset = Response.ok its →
        its ≠ [] → its.length < limit →
        fetchLoop (u key w) limit (fuel+1) reqIdx offset acc
          = (acc ++ its, [offset]))
    ∧ (∀ fuel reqIdx offset acc, u key w reqIdx offset = Response.ok [] →
        fetchLoop (u key w) limit (fuel+1) reqIdx offset acc
          = (acc, [offset])) := by
  refine ⟨?_, ?_, ?_, ?_⟩
  · exact fetchLoop_log_length_le (u key w) limit max_requests 0 0 []
  · intro hlen hpos hpage
    unfold fetch_opportunities
    rw [fetchLoop_const_full (u key w) limit items hlen hpos hpage]
    refine List.map_congr_left ?_
    intro i _
    omega
  · intro fuel r off acc its h hne hl
    have hemp : its.isEmpty = false := by
      cases its with
      | nil => exact absurd rfl hne
      | cons a as => rfl
    simp [fetchLoop, h, hemp, hl]
  · intro fuel r off acc h
    simp [fetchLoop, h]

/-- C4 witness: a concrete always-full upstream (page size 1) is cut off
after exactly the 50-request cap, the offsets advancing by the page size. -/
theorem C4_witness :
    (fetch_opportunities (some "k") (fun _ _ _ _ => Response.ok [emptyRaw])
        (0, 30) 1).2
      = (List.range max_requests).map (fun i => i * 1) :=
  (C4_pagination_termination (some "k") (fun _ _ _ _ => Response.ok [emptyRaw])
      (0, 30) 1 [emptyRaw]).2.1 rfl (by decide) (fun _ _ => rfl)

/-- C5: every failing response ends the fetch with the records accumulated so
far instead of raising — a 401, any other non-200 non-429 status, a network
timeout, and any other raised request failure each abort with exactly the
accumulator; and in a run whose first page succeeds in full and whose second
request times out, the caller receives exactly the first page. -/
theorem C5_failure_absorption (key : Option String) (u : Upstream)
    (w : Window) (limit fuel reqIdx offset : Nat)
    (acc P : List RawOpportunity) :
    (u key w reqIdx offset = Response.status401 →
      fetchLoop (u key w) limit (fuel+1) reqIdx offset acc = (acc, [offset]))
    ∧ (u key w reqIdx offset = Response.statusOther →
      fetchLoop (u key w) limit (fuel+1) reqIdx offset acc = (acc, [offset]))
    ∧ (u key w reqIdx offset = Response.timeout →
      fetchLoop (u key w) limit (fuel+1) reqIdx offset acc = (acc, [offset]))
    ∧ (u key w reqIdx offset = Response.requestError →
      fetchLoop (u key w) limit (fuel+1) reqIdx offset acc = (acc, [offset]))
    ∧ (P.length = limit → 0 < limit → u key w 0 0 = Response.ok P →
        u key w 1 limit = Response.timeout →
        fetch_opportunities key u w limit = (P, [0, limit])) := by
  refine ⟨?_, ?_, ?_, ?_, ?_⟩
  · intro h; simp [fetchLoop, h]
  · intro h; simp [fetchLoop, h]
  · intro h; simp [fetchLoop, h]
  · intro h; simp [fetchLoop, h]
  · intro hlen hpos h1 h2
    have hemp : P.isEmpty = false := by
      cases P with
      | nil => simp at hlen; omega
      | cons a as => rfl
    have hnl : ¬ P.length < limit := by omega
    have s1 := fetchLoop_step_full (u key w) limit 49 0 0 [] P h1 hemp hnl
    simp only [Nat.zero_add, List.nil_append] at s1
    have s2 := fetchLoop_step_timeout (u key w) limit 48 1 limit P h2
    unfold fetch_opportunities max_requests
    rw [show (50 : Nat) = 49 + 1 from rfl, s1,
      show (49 : Nat) = 48 + 1 from rfl, s2]

/-- C5 witness: a first-request timeout returns the empty partial result. -/
theorem C5_witness :
    fetchLoop (u401 none (0, 30)) 1000 50 0 0 [] = ([], [0]) :=
  (C5_failure_absorption none u401 (0, 30) 1000 49 0 0 [] []).1 rfl

/-! ### C8, C6: the orchestrator -/

/-- The closed form of the orchestrator's resulting table: the sample seed
when the fetch or the filtered set is empty, the filtered batch
otherwise. -/
theorem update_closed_form (key : Option String) (u : Upstream) (t : Time)
    (st : List Opportunity) :
    (update_comprehensive_africa_data key u t st).1
      = (if (fetch_comprehensive_historical_data key u t).1.isEmpty
          then sample_data t
         else if (filter_africa_opportunities t
              (fetch_comprehensive_historical_data key u t).1).isEmpty
          then sample_data t
         else filter_africa_opportunities t
              (fetch_comprehensive_historical_data key u t).1) := by
  unfold update_comprehensive_africa_data create_enhanced_sample_data
    save_to_database
  by_cases h1 : (fetch_comprehensive_historical_data key u t).1.isEmpty
  · simp [h1, sample_data_ne_empty]
  · by_cases h2 : (filter_africa_opportunities t
        (fetch_comprehensive_historical_data key u t).1).isEmpty
    · simp [h1, h2, sample_data_ne_empty]
    · simp [h1, h2]

/-- C8: whenever a run yields zero relevant records (empty fetch, or the
filter empties the set), the orchestrator seeds the store with exactly the
fixed placeholder set, and every seeded identity carries the reserved
"SAMPLE" prefix. -/
theorem C8_placeholder_fallback (key : Option String) (u : Upstream)
    (t : Time) (st : List Opportunity)
    (h : filter_africa_opportunities t
        (fetch_comprehensive_historical_data key u t).1 = []) :
    (update_comprehensive_africa_data key u t st).1 = sample_data t
    ∧ ∀ p ∈ (update_comprehensive_africa_data key u t st).1,
        ("SAMPLE".data).isPrefixOf p.notice_id.data = true := by
  have hmain : (update_comprehensive_africa_data key u t st).1
      = sample_data t := by
    rw [update_closed_form]
    by_cases hf : (fetch_comprehensive_historical_data key u t).1.isEmpty
    · simp [hf]
    · simp [hf, h]
  refine ⟨hmain, ?_⟩
  rw [hmain]
  intro p hp
  simp only [sample_data, List.mem_cons, List.not_mem_nil, or_false] at hp
  rcases hp with hp | hp | hp <;> subst hp <;> rfl

/-- C8 witness: against an upstream that returns zero opportunities the
store ends as exactly the placeholder set. -/
theorem C8_witness :
    (update_comprehensive_africa_data (some "key") uEmpty t0 []).1
      = sample_data t0 :=
  (C8_placeholder_fallback (some "key") uEmpty t0 [] (by rfl)).1

/-- The filtered batch at two processing times differs only in the two
clock-stamped fields. -/
theorem filter_map_stripTime (t tp : Time) (ops : List RawOpportunity) :
    (filter_africa_opportunities t ops).map stripTime
      = (filter_africa_opportunities tp ops).map stripTime := by
  unfold filter_africa_opportunities
  rw [List.map_map, List.map_map]
  refine List.map_congr_left ?_
  intro a _
  exact stripTime_process t tp a

/-- Whether the filtered batch is empty does not depend on the processing
time. -/
theorem filter_isEmpty_indep (t tp : Time) (ops : List RawOpportunity) :
    (filter_africa_opportunities t ops).isEmpty
      = (filter_africa_opportunities tp ops).isEmpty := by
  unfold filter_africa_opportunities
  cases h : ops.filter is_africa_opp with
  | nil => simp [h]
  | cons a as => simp [h]

/-- Equal timestamp-stripped tables have equal identity columns. -/
theorem map_notice_id_of_stripTime {l1 l2 : List Opportunity}
    (h : l1.map stripTime = l2.map stripTime) :
    l1.map Opportunity.notice_id = l2.map Opportunity.notice_id := by
  have h2 := congrArg (List.map Opportunity.notice_id) h
  rw [List.map_map, List.map_map] at h2
  exact h2

/-- Equal timestamp-stripped tables have equal row counts. -/
theorem map_length_of_stripTime {l1 l2 : List Opportunity}
    (h : l1.map stripTime = l2.map stripTime) : l1.length = l2.length := by
  have h2 := congrArg List.length h
  simpa using h2

/-- Equal timestamp-stripped tables are equal after stripping all volatile
fields. -/
theorem map_stripVolatile_of_stripTime {l1 l2 : List Opportunity}
    (h : l1.map stripTime = l2.map stripTime) :
    l1.map stripVolatile = l2.map stripVolatile := by
  have h2 := congrArg (List.map stripVolatile) h
  rw [List.map_map, List.map_map] at h2
  exact h2

/-- The placeholder identities are a fixed list. -/
theorem sample_ids (t : Time) :
    (sample_data t).map Opportunity.notice_id
      = [ "SAMPLE001", "SAMPLE002", "SAMPLE003_HISTORICAL" ] := rfl

/-- The placeholder rows agree across run times once every clock-derived
field is stripped. -/
theorem sample_stripVolatile_indep (t tp : Time) :
    (sample_data t).map stripVolatile = (sample_data tp).map stripVolatile :=
  rfl

/-- C6 (amended): two runs of the orchestrator against an unchanged upstream
response leave the identity column (hence its multiset and the row count)
unchanged; when the runs persist fetched data (nonempty filtered set) the
rows differ only in the `last_updated` / `data_collection_date` stamps; and
on every path the rows agree once all clock-derived fields are stripped. -/
theorem C6_idempotence_modulo_stamps (key : Option String) (u : Upstream)
    (t1 t2 : Time) (st0 : List Opportunity)
    (hsame : (fetch_comprehensive_historical_data key u t1).1
        = (fetch_comprehensive_historical_data key u t2).1) :
    ((update_comprehensive_africa_data key u t2
        ((update_comprehensive_africa_data key u t1 st0).1)).1.map
          Opportunity.notice_id
      = (update_comprehensive_africa_data key u t1 st0).1.map
          Opportunity.notice_id)
    ∧ ((update_comprehensive_africa_data key u t2
        ((update_comprehensive_africa_data key u t1 st0).1)).1.length
      = (update_comprehensive_africa_data key u t1 st0).1.length)
    ∧ (filter_africa_opportunities t1
          (fetch_comprehensive_historical_data key u t1).1 ≠ [] →
        (update_comprehensive_africa_data key u t2
          ((update_comprehensive_africa_data key u t1 st0).1)).1.map stripTime
        = (update_comprehensive_africa_data key u t1 st0).1.map stripTime)
    ∧ ((update_comprehensive_africa_data key u t2
        ((update_comprehensive_africa_data key u t1 st0).1)).1.map
          stripVolatile
      = (update_comprehensive_africa_data key u t1 st0).1.map stripVolatile)
    := by
  have hcf1 := update_closed_form key u t1 st0
  have hcf2 := update_closed_form key u t2
    ((update_comprehensive_africa_data key u t1 st0).1)
  rw [← hsame] at hcf2
  by_cases hF : (fetch_comprehensive_historical_data key u t1).1.isEmpty
  · have e1 : (update_comprehensive_africa_data key u t1 st0).1
        = sample_data t1 := by rw [hcf1]; simp [hF]
    have e2 : (update_comprehensive_africa_data key u t2
        ((update_comprehensive_africa_data key u t1 st0).1)).1
        = sample_data t2 := by rw [hcf2]; simp [hF]
    rw [e2, e1]
    refine ⟨by rw [sample_ids, sample_ids], rfl, ?_,
      sample_stripVolatile_indep t2 t1⟩
    intro hne
    exfalso
    have hFnil : (fetch_comprehensive_historical_data key u t1).1 = [] :=
      List.isEmpty_iff.mp hF
    rw [hFnil] at hne
    exact hne rfl
  · by_cases hA : (filter_africa_opportunities t1
        (fetch_comprehensive_historical_data key u t1).1).isEmpty
    · have hA2 : (filter_africa_opportunities t2
          (fetch_comprehensive_historical_data key u t1).1).isEmpty = true := by
        rw [filter_isEmpty_indep t2 t1]
        exact hA
      have e1 : (update_comprehensive_africa_data key u t1 st0).1
          = sample_data t1 := by rw [hcf1]; simp [hF, hA]
      have e2 : (update_comprehensive_africa_data key u t2
          ((update_comprehensive_africa_data key u t1 st0).1)).1
          = sample_data t2 := by rw [hcf2]; simp [hF, hA2]
      rw [e2, e1]
      refine ⟨by rw [sample_ids, sample_ids], rfl, ?_,
        sample_stripVolatile_indep t2 t1⟩
      intro hne
      exact absurd (List.isEmpty_iff.mp hA) hne
    · have hBf : (filter_africa_opportunities t1
          (fetch_comprehensive_historical_data key u t1).1).isEmpty = false := by
        simpa using hA
      have hBf2 : (filter_africa_opportunities t2
          (fetch_comprehensive_historical_data key u t1).1).isEmpty = false := by
        rw [filter_isEmpty_indep t2 t1]
        exact hBf
      have e1 : (update_comprehensive_africa_data key u t1 st0).1
          = filter_africa_opportunities t1
              (fetch_comprehensive_historical_data key u t1).1 := by
        rw [hcf1]; simp [hF, hBf]
      have e2 : (update_comprehensive_africa_data key u t2
          ((update_comprehensive_africa_data key u t1 st0).1)).1
          = filter_africa_opportunities t2
              (fetch_comprehensive_historical_data key u t1).1 := by
        rw [hcf2]; simp [hF, hBf2]
      have hstrip : (filter_africa_opportunities t2
            (fetch_comprehensive_historical_data key u t1).1).map stripTime
          = (filter_africa_opportunities t1
            (fetch_comprehensive_historical_data key u t1).1).map stripTime :=
        filter_map_stripTime t2 t1 _
      rw [e2, e1]
      exact ⟨map_notice_id_of_stripTime hstrip,
        map_length_of_stripTime hstrip,
        fun _ => hstrip,
        map_stripVolatile_of_stripTime hstrip⟩

set_option maxRecDepth 8000 in
/-- C6 counterexample to the claim as stated: with an upstream returning zero
opportunities on both runs (an unchanged response), the two stores differ in
more than the two timestamp fields — the placeholder `posted_date`
(re-stamped from the current date) changes between runs on different days. -/
theorem C6_counterexample :
    ¬ ((update_comprehensive_africa_data (some "k") uEmpty tRun2
          ((update_comprehensive_africa_data (some "k") uEmpty tRun1 []).1)).1.map
            stripTime
        = (update_comprehensive_africa_data (some "k") uEmpty tRun1 []).1.map
            stripTime) := by
  decide

/-- C6 witness: a run that persists one fetched Kenya record twice — the
second store equals the first up to the two timestamp fields. -/
theorem C6_witness :
    ((update_comprehensive_africa_data (some "k") uKen tRun2
        ((update_comprehensive_africa_data (some "k") uKen tRun1 []).1)).1.map
          stripTime
      = (update_comprehensive_africa_data (some "k") uKen tRun1 []).1.map
          stripTime) :=
  (C6_idempotence_modulo_stamps (some "k") uKen tRun1 tRun2 [] rfl).2.2.1
    (by decide)

end SamAfrica
